import Mathlib

/-!
Verification of the Jamf-Monitor backend's health evaluation and caching
engine against its specification.

The Python source is shallowly embedded: timestamps and durations are `Int`
seconds (a `timedelta(hours=h)` is `h * 3600` seconds, `timedelta(minutes=5)`
is `5 * 60` seconds), optional values are `Option`, raised exceptions are
`Except.error`, and the database rows backing the device cache are a
`List CachedDeviceHealth`. Each definition carries a note pointing at the
source function it translates.
-/

namespace JamfMonitor

/-! ## Data model (`app/models/device.py`, `app/core/db_models.py`) -/

/-- `HealthStatus` enumeration from `app/models/device.py`. -/
inductive HealthStatus where
  | healthy
  | caution
  | unhealthy
deriving DecidableEq, Repr

/-- `DeviceBasicInfo` from `app/models/device.py`; the two timestamps are
optional. -/
structure DeviceBasicInfo where
  id : Int
  name : String
  serial_number : String
  model : String
  os_version : String
  last_contact_time : Option Int
  last_inventory_update : Option Int
deriving DecidableEq, Repr

/-- `HealthCheckResult` from `app/models/device.py`: the six derived booleans
plus the monitored-group match list. -/
structure HealthCheckResult where
  check_in_ok : Bool
  recon_ok : Bool
  has_failed_policies : Bool
  has_failed_mdm_commands : Bool
  has_pending_mdm_commands : Bool
  is_compliant : Bool
  smart_group_memberships : List String
deriving DecidableEq, Repr

/-- `HealthCheckResult.calculate_status` (`app/models/device.py` lines 32-45):
`any` of the five staleness and failure signals gives UNHEALTHY; otherwise
non-compliance or a non-empty (truthy) monitored-group match list gives
CAUTION; otherwise HEALTHY. -/
def HealthCheckResult.calculate_status (r : HealthCheckResult) : HealthStatus :=
  if !r.check_in_ok || !r.recon_ok || r.has_failed_policies
      || r.has_failed_mdm_commands || r.has_pending_mdm_commands then
    HealthStatus.unhealthy
  else if !r.is_compliant || !r.smart_group_memberships.isEmpty then
    HealthStatus.caution
  else
    HealthStatus.healthy

/-- `DeviceHealth` from `app/models/device.py`. -/
structure DeviceHealth where
  device : DeviceBasicInfo
  health : HealthCheckResult
  status : HealthStatus
  last_checked : Int
deriving DecidableEq, Repr

/-- `HealthThresholds` from `app/models/device.py`. -/
structure HealthThresholds where
  check_in_hours : Int
  recon_hours : Int
  pending_command_hours : Int
deriving DecidableEq, Repr

/-- An MDM command as used by the health service: its `status` string and the
parsed `dateIssued` timestamp (`none` when the field is missing or failed to
parse, matching `_parse_jamf_date` returning `None`). -/
structure MdmCommand where
  status : Option String
  dateIssued : Option Int
deriving DecidableEq, Repr

/-! ## Signal checks (`app/services/health_service.py`) -/

/-- `HealthCheckService._check_recent_contact` (lines 289-301): `False` when
the timestamp is absent, otherwise `last_contact > now - hours`. -/
def check_recent_contact (last_contact : Option Int) (threshold_hours : Int)
    (now : Int) : Bool :=
  match last_contact with
  | none => false
  | some t => decide (t > now - threshold_hours * 3600)

/-- `HealthCheckService._check_recent_recon` (lines 303-315): `False` when the
timestamp is absent, otherwise `last_recon > now - hours`. -/
def check_recent_recon (last_recon : Option Int) (threshold_hours : Int)
    (now : Int) : Bool :=
  match last_recon with
  | none => false
  | some t => decide (t > now - threshold_hours * 3600)

/-- The per-command test in `_check_pending_commands`: a command counts only
when its `dateIssued` parsed and is strictly before the cutoff. -/
def pending_command_is_stale (cmd : MdmCommand) (cutoff : Int) : Bool :=
  match cmd.dateIssued with
  | none => false
  | some d => decide (d < cutoff)

/-- `HealthCheckService._check_pending_commands` (lines 317-335): an empty
pending list returns `False` immediately; otherwise the loop returns `True`
iff some command is older than `now - threshold_hours`. -/
def check_pending_commands (pending_commands : List MdmCommand)
    (threshold_hours : Int) (now : Int) : Bool :=
  match pending_commands with
  | [] => false
  | cmds => cmds.any (fun cmd =>
      pending_command_is_stale cmd (now - threshold_hours * 3600))

/-- `HealthCheckService.set_thresholds` (lines 69-98): read the current
thresholds, replace exactly the supplied fields, and store the merged triple
(the settings repository, or the environment settings when no repository is
configured, ends up holding all three merged values, which is what
`get_thresholds` returns afterwards). The stored triple is modelled
directly. -/
def set_thresholds (current : HealthThresholds)
    (check_in_hours recon_hours pending_command_hours : Option Int) :
    HealthThresholds :=
  { check_in_hours := check_in_hours.getD current.check_in_hours
    recon_hours := recon_hours.getD current.recon_hours
    pending_command_hours :=
      pending_command_hours.getD current.pending_command_hours }

/-! ## Token broker (`app/services/jamf_service.py`, `_get_token`) -/

/-- The token fields of `JamfAPIService`: `_token` and `_token_expiry`
(`None` until the first successful exchange). -/
structure TokenState where
  token : Option String
  token_expiry : Option Int
deriving DecidableEq, Repr

/-- Outcome of one credential exchange against the external service:
a 200 response carrying `access_token` and `expires_in`, a non-200 response,
or a transport error (`httpx.RequestError`). -/
inductive ExchangeOutcome where
  | success (access_token : String) (expires_in : Int)
  | httpFailure (status_code : Int)
  | networkError
deriving DecidableEq, Repr

/-- What `_get_token` hands back to its caller: the cached token, a freshly
exchanged token, or the raised `HTTPException` (503) detail. -/
inductive TokenResult where
  | cached (token : String)
  | fresh (token : String)
  | authError (detail : String)
deriving DecidableEq, Repr

/-- The credential-exchange half of `_get_token` (lines 41-74): on a 200
response cache the token with expiry `now + expires_in` and return it; on a
non-200 response or transport error raise a 503 and leave the cached state
untouched. -/
def perform_exchange (st : TokenState) (now : Int) (ex : ExchangeOutcome) :
    TokenResult × TokenState :=
  match ex with
  | ExchangeOutcome.success access_token expires_in =>
      (TokenResult.fresh access_token,
        { token := some access_token, token_expiry := some (now + expires_in) })
  | ExchangeOutcome.httpFailure _ =>
      (TokenResult.authError "Failed to authenticate with Jamf Pro", st)
  | ExchangeOutcome.networkError =>
      (TokenResult.authError "Unable to connect to Jamf Pro", st)

/-- `JamfAPIService._get_token` (lines 29-74), as one serialized body (the
whole function runs under `self._lock`). Python's `if self._token and
self._token_expiry` is truthiness: both fields set and the token string
non-empty. The extra `Nat` counts credential exchanges performed by this
call (0 or 1). -/
def get_token (st : TokenState) (now : Int) (ex : ExchangeOutcome) :
    TokenResult × TokenState × Nat :=
  match st.token, st.token_expiry with
  | some t, some e =>
      if t ≠ "" ∧ now < e - 5 * 60 then
        (TokenResult.cached t, st, 0)
      else
        let r := perform_exchange st now ex
        (r.1, r.2, 1)
  | _, _ =>
      let r := perform_exchange st now ex
      (r.1, r.2, 1)

/-- N callers of `_get_token` arriving at the same instant `now`: the
`asyncio.Lock` around the whole body serializes them, so the run is the
sequential composition of `n` calls, each seeing the state left by the
previous one, with the external service answering `ex` whenever it is
contacted. Returns every caller's result, the final state, and the total
number of credential exchanges performed. -/
def run_concurrent_calls (st : TokenState) (now : Int) (ex : ExchangeOutcome) :
    Nat → List TokenResult × TokenState × Nat
  | 0 => ([], st, 0)
  | n + 1 =>
      let step := get_token st now ex
      let rest := run_concurrent_calls step.2.1 now ex n
      (step.1 :: rest.1, rest.2.1, step.2.2 + rest.2.2)

/-! ## Device cache (`app/core/repositories.py`, `DeviceCacheRepository`) -/

/-- A row of the `cached_device_health` table (`app/core/db_models.py`). -/
structure CachedDeviceHealth where
  device_id : Int
  device_name : String
  serial_number : String
  model : String
  os_version : String
  last_contact_time : Option Int
  last_inventory_update : Option Int
  check_in_ok : Bool
  recon_ok : Bool
  has_failed_policies : Bool
  has_failed_mdm_commands : Bool
  has_pending_mdm_commands : Bool
  is_compliant : Bool
  smart_group_memberships : List String
  status : HealthStatus
  cached_at : Int
  expires_at : Int
deriving DecidableEq, Repr

/-- SQLAlchemy's `Result.scalar_one_or_none` on the rows matching a query:
none, exactly one, or an exception when several rows match. -/
def scalar_one_or_none {α : Type} (rows : List α) : Except String (Option α) :=
  match rows with
  | [] => Except.ok none
  | [r] => Except.ok (some r)
  | _ => Except.error "Multiple rows were found when one or none was required"

/-- The table invariant the schema enforces (`device_id` is declared
`unique=True`): no two rows share a device id. -/
def cache_invariant (store : List CachedDeviceHealth) : Prop :=
  store.Pairwise (fun a b => a.device_id ≠ b.device_id)

/-- `DeviceCacheRepository.get_cached_device` (lines 130-139): select the row
with this `device_id` whose `expires_at` is still in the future. -/
def get_cached_device (store : List CachedDeviceHealth) (device_id : Int)
    (now : Int) : Except String (Option CachedDeviceHealth) :=
  scalar_one_or_none (store.filter
    (fun c => c.device_id == device_id && decide (now < c.expires_at)))

/-- The update branch of `cache_device_health` (lines 168-184): every data
field of the existing row is overwritten from the new `DeviceHealth`;
`device_id` is left as it is. -/
def update_cached_row (c : CachedDeviceHealth) (dh : DeviceHealth)
    (now expires_at : Int) : CachedDeviceHealth :=
  { c with
    device_name := dh.device.name
    serial_number := dh.device.serial_number
    model := dh.device.model
    os_version := dh.device.os_version
    last_contact_time := dh.device.last_contact_time
    last_inventory_update := dh.device.last_inventory_update
    check_in_ok := dh.health.check_in_ok
    recon_ok := dh.health.recon_ok
    has_failed_policies := dh.health.has_failed_policies
    has_failed_mdm_commands := dh.health.has_failed_mdm_commands
    has_pending_mdm_commands := dh.health.has_pending_mdm_commands
    is_compliant := dh.health.is_compliant
    smart_group_memberships := dh.health.smart_group_memberships
    status := dh.status
    cached_at := now
    expires_at := expires_at }

/-- The insert branch of `cache_device_health` (lines 186-204); `cached_at`
takes the server default `now`. -/
def new_cached_row (dh : DeviceHealth) (now expires_at : Int) :
    CachedDeviceHealth :=
  { device_id := dh.device.id
    device_name := dh.device.name
    serial_number := dh.device.serial_number
    model := dh.device.model
    os_version := dh.device.os_version
    last_contact_time := dh.device.last_contact_time
    last_inventory_update := dh.device.last_inventory_update
    check_in_ok := dh.health.check_in_ok
    recon_ok := dh.health.recon_ok
    has_failed_policies := dh.health.has_failed_policies
    has_failed_mdm_commands := dh.health.has_failed_mdm_commands
    has_pending_mdm_commands := dh.health.has_pending_mdm_commands
    is_compliant := dh.health.is_compliant
    smart_group_memberships := dh.health.smart_group_memberships
    status := dh.status
    cached_at := now
    expires_at := expires_at }

/-- `DeviceCacheRepository.cache_device_health` (lines 152-207): look up the
row for this device id (any expiry); update it in place when present,
otherwise insert a new row; either way `expires_at := now + ttl_seconds`. -/
def cache_device_health (store : List CachedDeviceHealth) (dh : DeviceHealth)
    (ttl_seconds : Int) (now : Int) :
    Except String (List CachedDeviceHealth) :=
  let expires_at := now + ttl_seconds
  match scalar_one_or_none
      (store.filter (fun c => c.device_id == dh.device.id)) with
  | Except.error e => Except.error e
  | Except.ok (some _) =>
      Except.ok (store.map (fun c =>
        if c.device_id == dh.device.id then update_cached_row c dh now expires_at
        else c))
  | Except.ok none =>
      Except.ok (store ++ [new_cached_row dh now expires_at])

/-- A sequence of `cache_device_health` calls; each element supplies the
record, the ttl and the wall-clock time of that call. -/
def put_seq (store : List CachedDeviceHealth) :
    List (DeviceHealth × Int × Int) → Except String (List CachedDeviceHealth)
  | [] => Except.ok store
  | (dh, ttl, now) :: rest =>
      match cache_device_health store dh ttl now with
      | Except.error e => Except.error e
      | Except.ok store2 => put_seq store2 rest

/-- `HealthCheckService._device_health_from_cache` (lines 246-275): rebuild a
`DeviceHealth` from the cached row; `last_checked` is the row's `cached_at`
and the status is the stored one (no re-classification). -/
def device_health_from_cache (cached : CachedDeviceHealth) : DeviceHealth :=
  { device :=
      { id := cached.device_id
        name := cached.device_name
        serial_number := cached.serial_number
        model := cached.model
        os_version := cached.os_version
        last_contact_time := cached.last_contact_time
        last_inventory_update := cached.last_inventory_update }
    health :=
      { check_in_ok := cached.check_in_ok
        recon_ok := cached.recon_ok
        has_failed_policies := cached.has_failed_policies
        has_failed_mdm_commands := cached.has_failed_mdm_commands
        has_pending_mdm_commands := cached.has_pending_mdm_commands
        is_compliant := cached.is_compliant
        smart_group_memberships := cached.smart_group_memberships }
    status := cached.status
    last_checked := cached.cached_at }

/-! ## Health evaluator (`app/services/health_service.py`) -/

/-- The `general` section of a computer-inventory-detail response; every field
is fetched with `.get(...)` and may be absent, the two timestamps additionally
go through `_parse_jamf_date` (so `none` also covers an unparseable value). -/
structure ComputerGeneral where
  name : Option String
  serialNumber : Option String
  modelIdentifier : Option String
  operatingSystemVersion : Option String
  lastContactTime : Option Int
  lastInventoryUpdateTimestamp : Option Int
deriving DecidableEq, Repr

/-- A policy entry as returned by `JamfAPIService.get_failed_policies` (only
its presence matters to the health service, which takes the list length). -/
structure Policy where
  name : String
deriving DecidableEq, Repr

/-- The upstream calls `check_device_health` makes through `JamfAPIService`,
each of which can raise: detail fetch, failed-policy list, the
failed/pending MDM command split, and the group-membership list. -/
structure JamfWorld where
  get_computer_detail : Int → Except String ComputerGeneral
  get_failed_policies : Int → Except String (List Policy)
  get_mdm_commands : Int → Except String (List MdmCommand × List MdmCommand)
  get_computer_group_membership : Int → Except String (List String)

/-- One observable side effect of `check_device_health`: an upstream fetch or
a cache write. -/
inductive Effect where
  | fetchDetail (id : Int)
  | fetchFailedPolicies (id : Int)
  | fetchMdmCommands (id : Int)
  | fetchGroupMembership (id : Int)
  | cacheWrite (id : Int)
deriving DecidableEq, Repr

/-- The cache-miss path of `check_device_health` (lines 147-217): fetch the
detail, derive the contact/recon booleans from the configured thresholds,
fetch failed policies and the MDM command split, fetch group memberships,
classify, stamp the record with `now`, and write it through to the cache
(when a cache repository is configured) with the configured ttl. Returns the
record, the store after the write, and the effects performed. -/
def fetch_and_classify (computer_id : Int) (has_cache_repo : Bool)
    (store : List CachedDeviceHealth) (world : JamfWorld)
    (thresholds : HealthThresholds) (compliance_group : String)
    (monitored_groups : List String) (cache_ttl : Int) (now : Int) :
    Except String (DeviceHealth × List CachedDeviceHealth × List Effect) := do
  let general ← world.get_computer_detail computer_id
  let device_info : DeviceBasicInfo :=
    { id := computer_id
      name := general.name.getD "Unknown"
      serial_number := general.serialNumber.getD "Unknown"
      model := general.modelIdentifier.getD "Unknown"
      os_version := general.operatingSystemVersion.getD "Unknown"
      last_contact_time := general.lastContactTime
      last_inventory_update := general.lastInventoryUpdateTimestamp }
  let check_in_ok := check_recent_contact device_info.last_contact_time
    thresholds.check_in_hours now
  let recon_ok := check_recent_recon device_info.last_inventory_update
    thresholds.recon_hours now
  let failed_policies ← world.get_failed_policies computer_id
  let has_failed_policies := decide (failed_policies.length > 0)
  let mdm_commands ← world.get_mdm_commands computer_id
  let has_failed_mdm := decide (mdm_commands.1.length > 0)
  let has_pending_mdm := check_pending_commands mdm_commands.2
    thresholds.pending_command_hours now
  let group_memberships ← world.get_computer_group_membership computer_id
  let is_compliant := group_memberships.contains compliance_group
  let monitored_group_matches := group_memberships.filter
    (fun g => monitored_groups.contains g && g != compliance_group)
  let health_result : HealthCheckResult :=
    { check_in_ok := check_in_ok
      recon_ok := recon_ok
      has_failed_policies := has_failed_policies
      has_failed_mdm_commands := has_failed_mdm
      has_pending_mdm_commands := has_pending_mdm
      is_compliant := is_compliant
      smart_group_memberships := monitored_group_matches }
  let device_health : DeviceHealth :=
    { device := device_info
      health := health_result
      status := health_result.calculate_status
      last_checked := now }
  let fetches := [Effect.fetchDetail computer_id,
    Effect.fetchFailedPolicies computer_id,
    Effect.fetchMdmCommands computer_id,
    Effect.fetchGroupMembership computer_id]
  if has_cache_repo then
    match cache_device_health store device_health cache_ttl now with
    | Except.error e => Except.error e
    | Except.ok store2 =>
        Except.ok (device_health, store2,
          fetches ++ [Effect.cacheWrite computer_id])
  else
    Except.ok (device_health, store, fetches)

/-- `HealthCheckService.check_device_health` (lines 134-217): when `use_cache`
is set and a cache repository is configured, a non-expired cached row is
returned as is (converted by `_device_health_from_cache`) with no fetches and
no writes; otherwise the full fetch-classify-cache path runs. -/
def check_device_health (computer_id : Int) (use_cache has_cache_repo : Bool)
    (store : List CachedDeviceHealth) (world : JamfWorld)
    (thresholds : HealthThresholds) (compliance_group : String)
    (monitored_groups : List String) (cache_ttl : Int) (now : Int) :
    Except String (DeviceHealth × List CachedDeviceHealth × List Effect) :=
  if use_cache && has_cache_repo then
    match get_cached_device store computer_id now with
    | Except.error e => Except.error e
    | Except.ok (some cached) =>
        Except.ok (device_health_from_cache cached, store, [])
    | Except.ok none =>
        fetch_and_classify computer_id has_cache_repo store world
          thresholds compliance_group monitored_groups cache_ttl now
  else
    fetch_and_classify computer_id has_cache_repo store world
      thresholds compliance_group monitored_groups cache_ttl now

/-! ## Bulk evaluator (`check_all_devices`, lines 219-244) -/

/-- `HealthCheckService.check_all_devices`: loop over the inventory ids,
append each successful evaluation to `results` and each raised error to
`errors`; the loop itself never raises. The per-device evaluation is the
injected `evalFn` (in the source, `check_device_health` for that id). -/
def check_all_devices (computers : List Int)
    (evalFn : Int → Except String DeviceHealth) :
    List DeviceHealth × List (Int × String) :=
  computers.foldl
    (fun acc computer =>
      match evalFn computer with
      | Except.ok device_health => (acc.1 ++ [device_health], acc.2)
      | Except.error e => (acc.1, acc.2 ++ [(computer, e)]))
    ([], [])

/-! ## Sample data for concrete instantiations -/

/-- A concrete healthy record used to instantiate theorems. -/
def sample_device_health : DeviceHealth :=
  { device :=
      { id := 1
        name := "mac-01"
        serial_number := "C02ABC"
        model := "Mac15,6"
        os_version := "14.5"
        last_contact_time := some 900
        last_inventory_update := some 900 }
    health :=
      { check_in_ok := true
        recon_ok := true
        has_failed_policies := false
        has_failed_mdm_commands := false
        has_pending_mdm_commands := false
        is_compliant := true
        smart_group_memberships := [] }
    status := HealthStatus.healthy
    last_checked := 1000 }

/-- A later evaluation of the same device: same identity, now out of the
compliance group. -/
def sample_device_health_caution : DeviceHealth :=
  { device := sample_device_health.device
    health :=
      { check_in_ok := true
        recon_ok := true
        has_failed_policies := false
        has_failed_mdm_commands := false
        has_pending_mdm_commands := false
        is_compliant := false
        smart_group_memberships := [] }
    status := HealthStatus.caution
    last_checked := 1100 }

/-- A concrete per-device evaluation in which device 3's detail fetch
fails and every other device succeeds. -/
def sample_eval (cid : Int) : Except String DeviceHealth :=
  if cid = 3 then Except.error "detail fetch failed"
  else Except.ok sample_device_health

/-- An upstream world in which every fetch fails — usable precisely because a
cache hit must not touch it. -/
def sample_world : JamfWorld :=
  { get_computer_detail := fun _ => Except.error "upstream unavailable"
    get_failed_policies := fun _ => Except.error "upstream unavailable"
    get_mdm_commands := fun _ => Except.error "upstream unavailable"
    get_computer_group_membership :=
      fun _ => Except.error "upstream unavailable" }

/-! ## Theorems -/

/-- C1: for every `HealthCheckResult`, `calculate_status` is UNHEALTHY iff one
of the five staleness/failure signals fires; with all five clear it is CAUTION
iff the device is not compliant or the monitored-group match list is
non-empty, and HEALTHY otherwise — staleness/failure signals dominate the
compliance signals. -/
theorem calculate_status_spec (r : HealthCheckResult) :
    (r.calculate_status = HealthStatus.unhealthy ↔
      (r.check_in_ok = false ∨ r.recon_ok = false ∨
        r.has_failed_policies = true ∨ r.has_failed_mdm_commands = true ∨
        r.has_pending_mdm_commands = true)) ∧
    (r.calculate_status = HealthStatus.caution ↔
      (r.check_in_ok = true ∧ r.recon_ok = true ∧
        r.has_failed_policies = false ∧ r.has_failed_mdm_commands = false ∧
        r.has_pending_mdm_commands = false ∧
        (r.is_compliant = false ∨ r.smart_group_memberships ≠ []))) ∧
    (r.calculate_status = HealthStatus.healthy ↔
      (r.check_in_ok = true ∧ r.recon_ok = true ∧
        r.has_failed_policies = false ∧ r.has_failed_mdm_commands = false ∧
        r.has_pending_mdm_commands = false ∧
        r.is_compliant = true ∧ r.smart_group_memberships = [])) := by
  obtain ⟨ci, ro, fp, fm, pm, ic, gs⟩ := r
  cases ci <;> cases ro <;> cases fp <;> cases fm <;> cases pm <;> cases ic <;>
    cases gs <;> simp [HealthCheckResult.calculate_status]

/-- C1 witness: a fresh, compliant device with no failures and no monitored
matches is HEALTHY. -/
theorem calculate_status_spec_witness :
    (HealthCheckResult.mk true true false false false true []).calculate_status
      = HealthStatus.healthy :=
  (calculate_status_spec
    (HealthCheckResult.mk true true false false false true [])).2.2.mpr
    ⟨rfl, rfl, rfl, rfl, rfl, rfl, rfl⟩

/-- C2: for every pending-command list and positive threshold,
`_check_pending_commands` is true iff some pending command carries an issue
time older than `threshold_hours` before `now`; a younger command contributes
nothing and the empty list yields false. -/
theorem check_pending_commands_spec (pending : List MdmCommand)
    (h now : Int) (hpos : 0 < h) :
    (check_pending_commands pending h now = true ↔
      ∃ c ∈ pending, ∃ d, c.dateIssued = some d ∧ d < now - h * 3600) ∧
    check_pending_commands [] h now = false := by
  constructor
  · cases pending with
    | nil =>
        simp [check_pending_commands]
    | cons c cs =>
        simp only [check_pending_commands, List.any_eq_true]
        constructor
        · rintro ⟨cmd, hmem, hstale⟩
          refine ⟨cmd, hmem, ?_⟩
          unfold pending_command_is_stale at hstale
          cases hd : cmd.dateIssued with
          | none => rw [hd] at hstale; simp at hstale
          | some d =>
              rw [hd] at hstale
              exact ⟨d, rfl, by simpa using hstale⟩
        · rintro ⟨cmd, hmem, d, hd, hlt⟩
          refine ⟨cmd, hmem, ?_⟩
          unfold pending_command_is_stale
          rw [hd]
          simpa using hlt
  · simp [check_pending_commands]

/-- C2 witness: one pending command issued at time 0 is stale for a 1-hour
threshold at time 7200, and the empty list is not. -/
theorem check_pending_commands_spec_witness :
    (check_pending_commands [MdmCommand.mk (some "Pending") (some 0)] 1 7200
        = true ↔
      ∃ c ∈ [MdmCommand.mk (some "Pending") (some 0)], ∃ d,
        c.dateIssued = some d ∧ d < 7200 - 1 * 3600) ∧
    check_pending_commands [] 1 7200 = false :=
  check_pending_commands_spec [MdmCommand.mk (some "Pending") (some 0)] 1 7200
    (by decide)

/-- C9: classification is total and missing timestamps bias to UNHEALTHY —
an absent `lastContactTime` makes `check_in_ok` false, an absent
`lastInventoryUpdate` makes `recon_ok` false, and whatever the remaining
signals are, the resulting classification is UNHEALTHY rather than an
error. -/
theorem classification_total_missing_timestamps (h1 h2 now : Int)
    (fp fm pm ic : Bool) (gs : List String) :
    check_recent_contact none h1 now = false ∧
    check_recent_recon none h2 now = false ∧
    (HealthCheckResult.mk (check_recent_contact none h1 now)
        (check_recent_recon none h2 now) fp fm pm ic gs).calculate_status
      = HealthStatus.unhealthy := by
  refine ⟨rfl, rfl, ?_⟩
  simp [check_recent_contact, check_recent_recon,
    HealthCheckResult.calculate_status]

/-- C9 witness at concrete values. -/
theorem classification_total_missing_timestamps_witness :
    check_recent_contact none 24 1000 = false ∧
    check_recent_recon none 24 1000 = false ∧
    (HealthCheckResult.mk (check_recent_contact none 24 1000)
        (check_recent_recon none 24 1000) false false false true
        []).calculate_status = HealthStatus.unhealthy :=
  classification_total_missing_timestamps 24 24 1000 false false false true []

/-- C10: `set_thresholds` merges — a field passed as `None` keeps its current
value, a supplied field takes the supplied value, and no other threshold
field is touched. -/
theorem set_thresholds_frame (current : HealthThresholds)
    (ci ro pc : Option Int) :
    (ci = none → (set_thresholds current ci ro pc).check_in_hours
      = current.check_in_hours) ∧
    (ro = none → (set_thresholds current ci ro pc).recon_hours
      = current.recon_hours) ∧
    (pc = none → (set_thresholds current ci ro pc).pending_command_hours
      = current.pending_command_hours) ∧
    (∀ v, ci = some v →
      (set_thresholds current ci ro pc).check_in_hours = v) ∧
    (∀ v, ro = some v →
      (set_thresholds current ci ro pc).recon_hours = v) ∧
    (∀ v, pc = some v →
      (set_thresholds current ci ro pc).pending_command_hours = v) := by
  refine ⟨?_, ?_, ?_, ?_, ?_, ?_⟩ <;>
    first
      | (intro hnone; subst hnone; simp [set_thresholds])
      | (intro v hsome; subst hsome; simp [set_thresholds])

/-- C10 witness: updating only `recon_hours` leaves the check-in and
pending-command thresholds at their current values. -/
theorem set_thresholds_frame_witness :
    (set_thresholds (HealthThresholds.mk 24 24 6) none (some 48)
        none).check_in_hours = 24 ∧
    (set_thresholds (HealthThresholds.mk 24 24 6) none (some 48)
        none).recon_hours = 48 ∧
    (set_thresholds (HealthThresholds.mk 24 24 6) none (some 48)
        none).pending_command_hours = 6 :=
  ⟨(set_thresholds_frame (HealthThresholds.mk 24 24 6) none (some 48)
      none).1 rfl,
   (set_thresholds_frame (HealthThresholds.mk 24 24 6) none (some 48)
      none).2.2.2.2.1 48 rfl,
   (set_thresholds_frame (HealthThresholds.mk 24 24 6) none (some 48)
      none).2.2.1 rfl⟩

/-- The loop of `check_all_devices` with an arbitrary accumulator: it appends
the successes and the failures of the remaining ids to the running lists. -/
theorem check_all_devices_foldl (evalFn : Int → Except String DeviceHealth)
    (computers : List Int) (acc : List DeviceHealth × List (Int × String)) :
    computers.foldl
      (fun acc computer =>
        match evalFn computer with
        | Except.ok device_health => (acc.1 ++ [device_health], acc.2)
        | Except.error e => (acc.1, acc.2 ++ [(computer, e)])) acc =
      (acc.1 ++ computers.filterMap (fun cid => (evalFn cid).toOption),
       acc.2 ++ computers.filterMap (fun cid =>
         match evalFn cid with
         | Except.ok _ => none
         | Except.error e => some (cid, e))) := by
  induction computers generalizing acc with
  | nil => simp
  | cons x t ih =>
      simp only [List.foldl_cons, List.filterMap_cons]
      cases hx : evalFn x with
      | ok dh => simp [ih, hx, Except.toOption]
      | error e => simp [ih, hx, Except.toOption]

/-- C5: the bulk evaluation never propagates a per-device error: it returns
exactly the records of the devices whose evaluation succeeded, in inventory
order with failed devices omitted entirely, accumulates one diagnostic entry
per failed device, and the success and error counts always sum to the
inventory size. -/
theorem check_all_devices_partial_failure (computers : List Int)
    (evalFn : Int → Except String DeviceHealth) :
    (check_all_devices computers evalFn).1 =
      computers.filterMap (fun cid => (evalFn cid).toOption) ∧
    (check_all_devices computers evalFn).2 =
      computers.filterMap (fun cid =>
        match evalFn cid with
        | Except.ok _ => none
        | Except.error e => some (cid, e)) ∧
    (check_all_devices computers evalFn).1.length
      + (check_all_devices computers evalFn).2.length = computers.length := by
  have h := check_all_devices_foldl evalFn computers ([], [])
  have h1 : (check_all_devices computers evalFn).1 =
      computers.filterMap (fun cid => (evalFn cid).toOption) := by
    unfold check_all_devices
    rw [h]
    simp
  have h2 : (check_all_devices computers evalFn).2 =
      computers.filterMap (fun cid =>
        match evalFn cid with
        | Except.ok _ => none
        | Except.error e => some (cid, e)) := by
    unfold check_all_devices
    rw [h]
    simp
  refine ⟨h1, h2, ?_⟩
  rw [h1, h2]
  clear h h1 h2
  induction computers with
  | nil => simp
  | cons x t ih =>
      cases hx : evalFn x with
      | ok dh =>
          simp only [List.filterMap_cons, hx, Except.toOption,
            List.length_cons] at ih ⊢
          omega
      | error e =>
          simp only [List.filterMap_cons, hx, Except.toOption,
            List.length_cons] at ih ⊢
          omega

/-- C5 witness: five devices with device 3's detail fetch failing yield four
records and one diagnostic entry. -/
theorem check_all_devices_partial_failure_witness :
    (check_all_devices [1, 2, 3, 4, 5] sample_eval).1.length = 4 ∧
    (check_all_devices [1, 2, 3, 4, 5] sample_eval).2 =
      [(3, "detail fetch failed")] := by
  have h := check_all_devices_partial_failure [1, 2, 3, 4, 5] sample_eval
  refine ⟨?_, ?_⟩
  · rw [h.1]; rfl
  · rw [h.2.1]; rfl

/-- A credential exchange never produces a `cached` result: its caller gets
either the fresh token or the raised authentication error. -/
theorem perform_exchange_not_cached (st : TokenState) (now : Int)
    (ex : ExchangeOutcome) (t : String) :
    (perform_exchange st now ex).1 ≠ TokenResult.cached t := by
  cases ex <;> simp [perform_exchange]

/-- C3: `_get_token` returns the cached token without contacting the external
service (zero exchanges) iff a cached token is present (set and non-empty, as
Python truthiness tests it) whose expiry lies more than the 5-minute safety
margin in the future; a cached result always is the stored token with the
state untouched; and whenever the cached token is within the margin of its
expiry it is not handed out — a credential exchange is performed instead. -/
theorem get_token_cached_iff (st : TokenState) (now : Int)
    (ex : ExchangeOutcome) :
    (((get_token st now ex).2.2 = 0 ∧
        ∃ t, (get_token st now ex).1 = TokenResult.cached t) ↔
      ∃ t e, st.token = some t ∧ t ≠ "" ∧ st.token_expiry = some e ∧
        now < e - 5 * 60) ∧
    (∀ t, (get_token st now ex).1 = TokenResult.cached t →
      st.token = some t ∧ (get_token st now ex).2.1 = st) ∧
    (∀ t e, st.token = some t → st.token_expiry = some e →
      e - 5 * 60 ≤ now → (get_token st now ex).2.2 = 1) := by
  obtain ⟨tok, expi⟩ := st
  cases tok with
  | none =>
      refine ⟨by simp [get_token], ?_, by simp⟩
      intro t ht
      exact absurd ht (by simpa [get_token] using
        perform_exchange_not_cached ⟨none, expi⟩ now ex t)
  | some t0 =>
      cases expi with
      | none =>
          refine ⟨by simp [get_token], ?_, by simp⟩
          intro t ht
          exact absurd ht (by simpa [get_token] using
            perform_exchange_not_cached ⟨some t0, none⟩ now ex t)
      | some e0 =>
          by_cases hcond : t0 ≠ "" ∧ now < e0 - 5 * 60
          · refine ⟨?_, ?_, ?_⟩
            · simp only [get_token, if_pos hcond]
              exact ⟨fun _ => ⟨t0, e0, rfl, hcond.1, rfl, hcond.2⟩,
                fun _ => ⟨by trivial, t0, by simp⟩⟩
            · intro t ht
              simp only [get_token, if_pos hcond] at ht ⊢
              obtain rfl : t0 = t := by
                simpa using ht
              exact ⟨rfl, by trivial⟩
            · intro t e ht he hle
              obtain rfl : t0 = t := by simpa using ht
              obtain rfl : e0 = e := by simpa using he
              exact absurd hcond.2 (by omega)
          · refine ⟨?_, ?_, ?_⟩
            · simp only [get_token, if_neg hcond]
              constructor
              · rintro ⟨h0, -⟩
                simp at h0
              · rintro ⟨t, e, ht, hne, he, hlt⟩
                obtain rfl : t0 = t := by simpa using ht
                obtain rfl : e0 = e := by simpa using he
                exact absurd ⟨hne, hlt⟩ hcond
            · intro t ht
              simp only [get_token, if_neg hcond] at ht
              exact absurd ht (perform_exchange_not_cached ⟨some t0, some e0⟩
                now ex t)
            · intro t e ht he hle
              simp only [get_token, if_neg hcond]

/-- C3 witness: a non-empty cached token expiring 1000 seconds from now is
returned from cache with no exchange. -/
theorem get_token_cached_iff_witness :
    (get_token ⟨some "tok", some 1000⟩ 0 ExchangeOutcome.networkError).2.2 = 0
      ∧ ∃ t, (get_token ⟨some "tok", some 1000⟩ 0
        ExchangeOutcome.networkError).1 = TokenResult.cached t :=
  (get_token_cached_iff ⟨some "tok", some 1000⟩ 0
    ExchangeOutcome.networkError).1.mpr
    ⟨"tok", 1000, rfl, by decide, rfl, by decide⟩

/-- Once a valid token is cached, every further serialized caller at the same
instant returns it from cache and performs no exchange. -/
theorem run_cached_all (m : Nat) (st : TokenState) (now : Int)
    (ex : ExchangeOutcome) (t : String) (e : Int)
    (h1 : st.token = some t) (h2 : st.token_expiry = some e)
    (h3 : t ≠ "") (h4 : now < e - 5 * 60) :
    run_concurrent_calls st now ex m =
      (List.replicate m (TokenResult.cached t), st, 0) := by
  obtain ⟨tok, expi⟩ := st
  obtain rfl : tok = some t := h1
  obtain rfl : expi = some e := h2
  induction m with
  | zero => rfl
  | succ n ih =>
      simp only [run_concurrent_calls, get_token, if_pos (And.intro h3 h4)]
      rw [ih]
      simp [List.replicate_succ]

/-- C4 (amended): with the callers serialized by the lock at one instant,
starting from no valid cached token, and the exchange granting a token whose
lifetime exceeds the 5-minute safety margin, exactly one credential exchange
happens: the first caller performs it and receives the fresh token, every
later caller receives the cached copy of that same token. -/
theorem single_flight (n : Nat) (st : TokenState) (now : Int) (tok : String)
    (ttl : Int) (hn : 0 < n)
    (hinvalid : ∀ t e, st.token = some t → st.token_expiry = some e →
      t ≠ "" → e - 5 * 60 ≤ now)
    (htok : tok ≠ "") (httl : 5 * 60 < ttl) :
    (run_concurrent_calls st now (ExchangeOutcome.success tok ttl) n).2.2 = 1 ∧
    (run_concurrent_calls st now (ExchangeOutcome.success tok ttl) n).1 =
      TokenResult.fresh tok ::
        List.replicate (n - 1) (TokenResult.cached tok) := by
  obtain ⟨m, rfl⟩ : ∃ m, n = m + 1 := ⟨n - 1, by omega⟩
  have hstep : get_token st now (ExchangeOutcome.success tok ttl) =
      (TokenResult.fresh tok,
        TokenState.mk (some tok) (some (now + ttl)), 1) := by
    obtain ⟨tok0, expi0⟩ := st
    cases tok0 with
    | none => rfl
    | some t0 =>
        cases expi0 with
        | none => rfl
        | some e0 =>
            have hno : ¬ (t0 ≠ "" ∧ now < e0 - 5 * 60) := by
              rintro ⟨hne, hlt⟩
              exact absurd (hinvalid t0 e0 rfl rfl hne) (by omega)
            simp only [get_token, if_neg hno]
            rfl
  have hrest := run_cached_all m (TokenState.mk (some tok) (some (now + ttl)))
    now (ExchangeOutcome.success tok ttl) tok (now + ttl) rfl rfl htok
    (by omega)
  simp [run_concurrent_calls, hstep, hrest]

/-- C4 witness: two serialized callers, nothing cached, a 3600-second grant —
one exchange, the first caller gets the fresh token, the second the cached
copy. -/
theorem single_flight_witness :
    (run_concurrent_calls ⟨none, none⟩ 0
      (ExchangeOutcome.success "t" 3600) 2).2.2 = 1 ∧
    (run_concurrent_calls ⟨none, none⟩ 0
      (ExchangeOutcome.success "t" 3600) 2).1 =
      TokenResult.fresh "t" :: List.replicate 1 (TokenResult.cached "t") :=
  single_flight 2 ⟨none, none⟩ 0 "t" 3600 (by decide)
    (fun t e h => nomatch h) (by decide) (by decide)

/-- C4 counterexample: two callers arriving with no cached token while the
service grants 60-second tokens cause two credential exchanges, not one — a
just-fetched 60-second token is already inside the 5-minute safety margin, so
the second serialized caller refreshes again instead of reusing it. -/
theorem single_flight_counterexample :
    (run_concurrent_calls ⟨none, none⟩ 0
        (ExchangeOutcome.success "jamf-token" 60) 2).2.2 = 2 ∧
    ¬ (run_concurrent_calls ⟨none, none⟩ 0
        (ExchangeOutcome.success "jamf-token" 60) 2).2.2 = 1 := by
  exact ⟨rfl, by decide⟩

/-- Under the unique-device-id invariant, the rows matching a device id are
none or exactly one. -/
theorem filter_device_id_nil_or_single (store : List CachedDeviceHealth)
    (hinv : cache_invariant store) (d : Int) :
    store.filter (fun c => c.device_id == d) = [] ∨
    ∃ c0, store.filter (fun c => c.device_id == d) = [c0] ∧
      c0.device_id = d := by
  induction store with
  | nil => exact Or.inl rfl
  | cons a l ih =>
      rw [cache_invariant, List.pairwise_cons] at hinv
      obtain ⟨ha, hl⟩ := hinv
      by_cases hba : a.device_id = d
      · refine Or.inr ⟨a, ?_, hba⟩
        rw [List.filter_cons]
        have hnil : l.filter (fun c => c.device_id == d) = [] := by
          rw [List.filter_eq_nil_iff]
          intro b hb
          simp only [beq_iff_eq]
          intro hbd
          exact ha b hb (hba.trans hbd.symm)
        simp [hba, hnil]
      · rw [List.filter_cons]
        simp only [beq_iff_eq, hba]
        simpa using ih hl

/-- Restricting a singleton id-filter by a further condition keeps the row
exactly when the row satisfies it. -/
theorem filter_and_of_filter_single (store : List CachedDeviceHealth)
    (d : Int) (q : CachedDeviceHealth → Bool) (c0 : CachedDeviceHealth)
    (hfil : store.filter (fun c => c.device_id == d) = [c0]) :
    store.filter (fun c => c.device_id == d && q c) =
      if q c0 then [c0] else [] := by
  have h := List.filter_filter (p := q) (fun c => c.device_id == d) store
  rw [hfil] at h
  have h2 : store.filter (fun c => q c && (c.device_id == d)) =
      store.filter (fun c => c.device_id == d && q c) := by
    apply List.filter_congr
    intro c _
    exact Bool.and_comm (q c) (c.device_id == d)
  rw [h2] at h
  rw [← h]
  rw [List.filter_cons]
  by_cases hq : q c0 = true <;> simp [hq]

/-- Restricting an empty id-filter by a further condition stays empty. -/
theorem filter_and_of_filter_nil (store : List CachedDeviceHealth)
    (d : Int) (q : CachedDeviceHealth → Bool)
    (hfil : store.filter (fun c => c.device_id == d) = []) :
    store.filter (fun c => c.device_id == d && q c) = [] := by
  rw [List.filter_eq_nil_iff] at hfil ⊢
  intro a ha
  simp only [Bool.and_eq_true, not_and]
  intro hd
  exact absurd hd (hfil a ha)

/-- `cache_device_health` on a store satisfying the unique-id invariant:
it succeeds, preserves the invariant, and afterwards exactly one row carries
the device id — holding the new record's data, cached at `now`, expiring at
`now + ttl`. -/
theorem cache_put_ok (store : List CachedDeviceHealth)
    (hinv : cache_invariant store) (dh : DeviceHealth) (ttl now : Int) :
    ∃ store2,
      cache_device_health store dh ttl now = Except.ok store2 ∧
      cache_invariant store2 ∧
      ∃ row, store2.filter (fun c => c.device_id == dh.device.id) = [row] ∧
        row.device_id = dh.device.id ∧
        row.cached_at = now ∧ row.expires_at = now + ttl ∧
        device_health_from_cache row = { dh with last_checked := now } := by
  rcases filter_device_id_nil_or_single store hinv dh.device.id with
    hfil | ⟨c0, hfil, hc0⟩
  · refine ⟨store ++ [new_cached_row dh now (now + ttl)], ?_, ?_,
      new_cached_row dh now (now + ttl), ?_, rfl, rfl, rfl, rfl⟩
    · unfold cache_device_health
      rw [hfil]
      rfl
    · rw [cache_invariant, List.pairwise_append]
      refine ⟨hinv, List.pairwise_singleton _ _, ?_⟩
      intro a ha b hb
      rw [List.mem_singleton] at hb
      subst hb
      rw [List.filter_eq_nil_iff] at hfil
      have := hfil a ha
      simpa [new_cached_row] using this
    · rw [List.filter_append, hfil]
      simp [new_cached_row]
  · refine ⟨store.map (fun c =>
      if c.device_id == dh.device.id then
        update_cached_row c dh now (now + ttl)
      else c), ?_, ?_, ?_⟩
    · unfold cache_device_health
      rw [hfil]
      rfl
    · rw [cache_invariant, List.pairwise_map]
      refine hinv.imp ?_
      intro a b hab
      have hfid : ∀ c : CachedDeviceHealth,
          (if c.device_id == dh.device.id then
            update_cached_row c dh now (now + ttl) else c).device_id
            = c.device_id := by
        intro c
        by_cases h : c.device_id = dh.device.id <;>
          simp [h, update_cached_row]
      rw [hfid a, hfid b]
      exact hab
    · refine ⟨update_cached_row c0 dh now (now + ttl), ?_, ?_, rfl, rfl, ?_⟩
      · rw [List.filter_map]
        have hcomp : ((fun c : CachedDeviceHealth => c.device_id ==
            dh.device.id) ∘ (fun c =>
              if c.device_id == dh.device.id then
                update_cached_row c dh now (now + ttl)
              else c)) = fun c => c.device_id == dh.device.id := by
          funext c
          by_cases hc : c.device_id = dh.device.id <;>
            simp [hc, update_cached_row]
        rw [hcomp, hfil]
        simp [hc0]
      · simp [update_cached_row, hc0]
      · unfold device_health_from_cache update_cached_row
        simp only
        rw [hc0]

/-- Reading a device id whose store holds exactly one row for it returns that
row precisely while it is unexpired. -/
theorem get_cached_device_of_single (store : List CachedDeviceHealth)
    (d : Int) (row : CachedDeviceHealth)
    (hfil : store.filter (fun c => c.device_id == d) = [row]) (n : Int) :
    get_cached_device store d n =
      Except.ok (if n < row.expires_at then some row else none) := by
  unfold get_cached_device
  rw [filter_and_of_filter_single store d
    (fun c => decide (n < c.expires_at)) row hfil]
  by_cases h : n < row.expires_at <;> simp [h, scalar_one_or_none]

/-- Reading a device id with no row in the store returns nothing. -/
theorem get_cached_device_of_nil (store : List CachedDeviceHealth)
    (d : Int) (hfil : store.filter (fun c => c.device_id == d) = [])
    (n : Int) :
    get_cached_device store d n = Except.ok none := by
  unfold get_cached_device
  rw [filter_and_of_filter_nil store d
    (fun c => decide (n < c.expires_at)) hfil]
  rfl

/-- A successful `get_cached_device` never hands back an expired row. -/
theorem get_cached_device_not_expired (store : List CachedDeviceHealth)
    (d n : Int) (c : CachedDeviceHealth)
    (hget : get_cached_device store d n = Except.ok (some c)) :
    n < c.expires_at := by
  unfold get_cached_device at hget
  rcases hl : store.filter
      (fun c => c.device_id == d && decide (n < c.expires_at)) with
    _ | ⟨x, _ | ⟨y, t⟩⟩ <;> rw [hl] at hget <;>
    simp only [scalar_one_or_none] at hget
  · exact absurd hget (by simp)
  · have hx : x = c := by simpa using hget
    subst hx
    have hxmem : x ∈ store.filter
        (fun c => c.device_id == d && decide (n < c.expires_at)) := by
      rw [hl]
      exact List.mem_singleton_self x
    have := (List.mem_filter.mp hxmem).2
    simp only [Bool.and_eq_true, decide_eq_true_eq] at this
    exact this.2
  · exact absurd hget (by simp)

/-- C7: under the unique-id invariant, a cache put of a record `r` stamped at
the put time succeeds, a get for `r`'s device id before the ttl elapses
returns a record equal to `r`, a get at or after expiry returns nothing, a
get for an id with no entry returns nothing, and a get never surfaces an
expired entry. -/
theorem cache_round_trip (store : List CachedDeviceHealth)
    (hinv : cache_invariant store) (r : DeviceHealth) (t now n1 n2 : Int)
    (ht : 0 < t) (hstamp : r.last_checked = now)
    (h1 : n1 < now + t) (h2 : now + t ≤ n2) :
    ∃ store2, cache_device_health store r t now = Except.ok store2 ∧
      (∃ c, get_cached_device store2 r.device.id n1 = Except.ok (some c) ∧
        device_health_from_cache c = r) ∧
      get_cached_device store2 r.device.id n2 = Except.ok none ∧
      (∀ s d n, (∀ c2 ∈ s, c2.device_id ≠ d) →
        get_cached_device s d n = Except.ok none) ∧
      (∀ s d n c2, get_cached_device s d n = Except.ok (some c2) →
        n < c2.expires_at) := by
  subst hstamp
  obtain ⟨store2, hok, hinv2, row, hfil, hid, hcat, hexp, hconv⟩ :=
    cache_put_ok store hinv r t r.last_checked
  refine ⟨store2, hok, ⟨row, ?_, ?_⟩, ?_, ?_, ?_⟩
  · rw [get_cached_device_of_single store2 r.device.id row hfil, hexp]
    simp [h1]
  · rw [hconv]
  · rw [get_cached_device_of_single store2 r.device.id row hfil, hexp]
    have : ¬ n2 < r.last_checked + t := by omega
    simp [this]
  · intro s d n hno
    refine get_cached_device_of_nil s d ?_ n
    rw [List.filter_eq_nil_iff]
    intro a ha
    simpa using hno a ha
  · exact fun s d n c2 h => get_cached_device_not_expired s d n c2 h

/-- C7 witness: putting the sample record at its stamp time 1000 with a
60-second ttl, reading it back at 1030 returns it, and reading at 1060
returns nothing. -/
theorem cache_round_trip_witness :
    ∃ store2, cache_device_health [] sample_device_health 60 1000
        = Except.ok store2 ∧
      (∃ c, get_cached_device store2 sample_device_health.device.id 1030
          = Except.ok (some c) ∧
        device_health_from_cache c = sample_device_health) ∧
      get_cached_device store2 sample_device_health.device.id 1060
        = Except.ok none ∧
      (∀ s d n, (∀ c2 ∈ s, c2.device_id ≠ d) →
        get_cached_device s d n = Except.ok none) ∧
      (∀ s d n c2, get_cached_device s d n = Except.ok (some c2) →
        n < c2.expires_at) :=
  cache_round_trip [] List.Pairwise.nil sample_device_health 60 1000 1030 1060
    (by decide) rfl (by decide) (by decide)

/-- C8: under the unique-id invariant, any sequence of puts for one device id
(ending with the put `pl`) succeeds and leaves exactly one row carrying that
id — a put overwrites the prior entry rather than appending — and a get
within the last put's ttl retrieves the data of that latest put. -/
theorem cache_overwrite_latest (d : Int)
    (ps : List (DeviceHealth × Int × Int))
    (pl : DeviceHealth × Int × Int) (hlast : ps.getLast? = some pl) :
    ∀ store : List CachedDeviceHealth, cache_invariant store →
      (∀ p ∈ ps, p.1.device.id = d) →
      ∃ store2, put_seq store ps = Except.ok store2 ∧
        store2.countP (fun c => c.device_id == d) = 1 ∧
        ∀ n, n < pl.2.2 + pl.2.1 →
          ∃ c, get_cached_device store2 d n = Except.ok (some c) ∧
            device_health_from_cache c =
              { pl.1 with last_checked := pl.2.2 } := by
  induction ps with
  | nil => exact absurd hlast (by simp)
  | cons p ps ih =>
      intro store hinv hd
      obtain ⟨dh, ttl, tme⟩ := p
      have hdd : dh.device.id = d := hd (dh, ttl, tme) (List.mem_cons_self _ _)
      obtain ⟨store1, hok1, hinv1, row, hfil, hid, hcat, hexp, hconv⟩ :=
        cache_put_ok store hinv dh ttl tme
      rw [hdd] at hfil
      cases ps with
      | nil =>
          obtain rfl : pl = (dh, ttl, tme) := by simpa using hlast.symm
          refine ⟨store1, ?_, ?_, ?_⟩
          · unfold put_seq
            rw [hok1]
            rfl
          · rw [List.countP_eq_length_filter, hfil]
            rfl
          · intro n hn
            refine ⟨row, ?_, hconv⟩
            rw [get_cached_device_of_single store1 d row hfil, hexp]
            have : n < tme + ttl := hn
            simp [this]
      | cons q ps2 =>
          rw [List.getLast?_cons_cons] at hlast
          obtain ⟨store2, hseq, hcount, hget⟩ :=
            ih hlast store1 hinv1
              (fun p hp => hd p (List.mem_cons_of_mem _ hp))
          refine ⟨store2, ?_, hcount, hget⟩
          unfold put_seq
          rw [hok1]
          exact hseq

/-- C8 witness: two puts for device 1 — the healthy record at 1000, then the
caution record at 1100 — leave one row, and a get at 1150 returns the caution
record. -/
theorem cache_overwrite_latest_witness :
    ∃ store2,
      put_seq [] [(sample_device_health, 300, 1000),
        (sample_device_health_caution, 300, 1100)] = Except.ok store2 ∧
      store2.countP (fun c => c.device_id == 1) = 1 ∧
      ∀ n, n < 1100 + 300 →
        ∃ c, get_cached_device store2 1 n = Except.ok (some c) ∧
          device_health_from_cache c =
            { sample_device_health_caution with last_checked := 1100 } := by
  have h := cache_overwrite_latest 1
    [(sample_device_health, 300, 1000),
      (sample_device_health_caution, 300, 1100)]
    (sample_device_health_caution, 300, 1100) rfl [] List.Pairwise.nil
    (by
      intro p hp
      rcases List.mem_cons.mp hp with rfl | hp2
      · rfl
      · rcases List.mem_cons.mp hp2 with rfl | hp3
        · rfl
        · exact absurd hp3 (List.not_mem_nil p))
  exact h

/-- C6: a `check_device_health` call with `use_cache` set, a cache repository
configured, and a non-expired cached entry for the device returns that entry
converted as is: the stored status is reused without re-classification, the
effect trace is empty (no upstream fetch, no cache write), and the store is
unchanged. -/
theorem check_device_health_cache_hit (computer_id : Int)
    (store : List CachedDeviceHealth) (world : JamfWorld)
    (thresholds : HealthThresholds) (compliance_group : String)
    (monitored_groups : List String) (cache_ttl now : Int)
    (cached : CachedDeviceHealth)
    (hget : get_cached_device store computer_id now
      = Except.ok (some cached)) :
    check_device_health computer_id true true store world thresholds
        compliance_group monitored_groups cache_ttl now =
      Except.ok (device_health_from_cache cached, store, []) := by
  unfold check_device_health
  rw [hget]
  rfl

/-- C6 witness: with the sample record cached until 1300 and every upstream
call failing, the call at 1100 still answers from the cache. -/
theorem check_device_health_cache_hit_witness :
    check_device_health 1 true true
        [new_cached_row sample_device_health 1000 1300] sample_world
        (HealthThresholds.mk 24 24 6) "Compliance" [] 300 1100 =
      Except.ok
        (device_health_from_cache (new_cached_row sample_device_health
          1000 1300),
         [new_cached_row sample_device_health 1000 1300], []) :=
  check_device_health_cache_hit 1
    [new_cached_row sample_device_health 1000 1300] sample_world
    (HealthThresholds.mk 24 24 6) "Compliance" [] 300 1100
    (new_cached_row sample_device_health 1000 1300) rfl

end JamfMonitor
